import Mathlib

/-!
Shallow embedding of `src/fut.cpp`: a one-shot promise/future primitive built
from a `SharedState<T>` (a value slot, an exception slot, a ready flag, a
mutex and a condition variable), a `MyFuture<T>` read handle and a
`MyPromise<T>` write handle.

Modelling conventions:
* The mutex and condition variable serialize the operations; each public
  operation is one atomic step on the state, so the embedding is a pure
  state-passing translation of the critical sections.
* A C++ exception thrown by an operation is an `Except.error`; since the
  throws in the source happen before any mutation, the state component
  returned alongside an error is the unchanged input state.
* `std::exception_ptr` is nullable, so the stored exception slot and the
  argument of `set_exception` are `Option (CppExc E)`: `none` is the null
  exception pointer.  `CppExc E` covers both the `std::runtime_error`
  objects the source constructs (carrying their message string) and an
  arbitrary user exception payload of type `E`.
* Blocking (`cv_.wait(lock, [this]{ return ready_; })`) is modelled with an
  outer `Option`: `none` means the call blocks (no writer in the modelled
  run will ever satisfy the predicate), `some r` means it returns or throws.
* `std::shared_ptr<SharedState<T>>` is modelled as `Option (SharedState T E)`
  held by value: the claims under study are single-threaded interleavings in
  which at most one handle mutates the state at a time, and sharing is made
  explicit by threading the updated state to whichever handle reads next.
-/

/-- A C++ exception value: either a `std::runtime_error` carrying its message,
or an arbitrary user exception payload of type `E` (the payload a producer
wraps into an `exception_ptr`). -/
inductive CppExc (E : Type) where
  | runtimeError (msg : String)
  | user (e : E)
deriving DecidableEq, Repr

/-- `SharedState<T>` from `src/fut.cpp`: `std::optional<T> value_`,
`std::exception_ptr exception_ptr_` (nullable), `bool ready_{false}`.
The mutex and condition variable have no value content and are modelled by
the atomicity of each operation. -/
structure SharedState (T E : Type) where
  value_ : Option T
  exception_ptr_ : Option (CppExc E)
  ready_ : Bool
deriving DecidableEq, Repr

/-- The default-constructed `SharedState`: empty optional, null exception
pointer, `ready_{false}`. -/
def SharedState.init {T E : Type} : SharedState T E :=
  { value_ := none, exception_ptr_ := none, ready_ := false }

/-- `SharedState::set_value`: under the lock, throw
`runtime_error("Promise already satisfied")` if `ready_`; otherwise store the
value, set `ready_ = true`, notify.  Returns the call's outcome together with
the post-state (unchanged on throw). -/
def SharedState.set_value {T E : Type} (s : SharedState T E) (val : T) :
    Except (CppExc E) Unit × SharedState T E :=
  if s.ready_ then
    (Except.error (CppExc.runtimeError "Promise already satisfied"), s)
  else
    (Except.ok (), { s with value_ := some val, ready_ := true })

/-- `SharedState::set_exception`: under the lock, throw
`runtime_error("Promise already satisfied")` if `ready_`; otherwise store the
(possibly null) exception pointer, set `ready_ = true`, notify. -/
def SharedState.set_exception {T E : Type} (s : SharedState T E)
    (p : Option (CppExc E)) : Except (CppExc E) Unit × SharedState T E :=
  if s.ready_ then
    (Except.error (CppExc.runtimeError "Promise already satisfied"), s)
  else
    (Except.ok (), { s with exception_ptr_ := p, ready_ := true })

/-- `SharedState::get_value`: wait until `ready_` (modelled as `none` when the
call blocks); then rethrow `exception_ptr_` if it is non-null, else return
`*value_` if `value_` is engaged, else throw the defensive
`runtime_error("Internal error: shared state ready but no value or exception")`.
The state is not mutated by a read. -/
def SharedState.get_value {T E : Type} (s : SharedState T E) :
    Option (Except (CppExc E) T) :=
  if s.ready_ then
    some (match s.exception_ptr_ with
      | some e => Except.error e
      | none =>
        match s.value_ with
        | some v => Except.ok v
        | none => Except.error (CppExc.runtimeError
            "Internal error: shared state ready but no value or exception"))
  else
    none

/-- `SharedState::is_ready`: return `ready_` under the lock. -/
def SharedState.is_ready {T E : Type} (s : SharedState T E) : Bool :=
  s.ready_

/-- `SharedState::wait`: block until `ready_` (`none` when the call blocks). -/
def SharedState.wait {T E : Type} (s : SharedState T E) : Option Unit :=
  if s.ready_ then some () else none

/-- A write operation on a `SharedState` (the two mutating entry points). -/
inductive WriteOp (T E : Type) where
  | setValue (v : T)
  | setException (p : Option (CppExc E))
deriving DecidableEq, Repr

/-- Apply one write operation, returning its outcome and the post-state. -/
def SharedState.applyWrite {T E : Type} (s : SharedState T E) :
    WriteOp T E → Except (CppExc E) Unit × SharedState T E
  | WriteOp.setValue v => s.set_value v
  | WriteOp.setException p => s.set_exception p

/-- Run a sequence of write operations, keeping only the post-states (a throw
leaves the state unchanged, exactly as in the source). -/
def SharedState.run {T E : Type} (s : SharedState T E) :
    List (WriteOp T E) → SharedState T E
  | [] => s
  | op :: ops => ((s.applyWrite op).2).run ops

/-- `MyFuture<T>`: a (nullable) shared pointer to the `SharedState`. -/
structure MyFuture (T E : Type) where
  state_ : Option (SharedState T E)
deriving DecidableEq, Repr

/-- `MyFuture::get`: throw `runtime_error("Future has no associated state")`
if `state_` is null, else delegate to `SharedState::get_value` (blocking when
the state is not ready).  The future itself is left untouched: the
`state_.reset()` line in the source is commented out and the value is
returned by copy. -/
def MyFuture.get {T E : Type} (f : MyFuture T E) :
    Option (Except (CppExc E) T) :=
  match f.state_ with
  | none => some (Except.error (CppExc.runtimeError
      "Future has no associated state"))
  | some s => s.get_value

/-- `MyFuture::is_ready`: return `false` when `state_` is null, else delegate
to `SharedState::is_ready`. -/
def MyFuture.is_ready {T E : Type} (f : MyFuture T E) : Bool :=
  match f.state_ with
  | none => false
  | some s => s.is_ready

/-- `MyFuture::wait`: throw `runtime_error("Future has no associated state")`
if `state_` is null, else delegate to `SharedState::wait`. -/
def MyFuture.wait {T E : Type} (f : MyFuture T E) :
    Option (Except (CppExc E) Unit) :=
  match f.state_ with
  | none => some (Except.error (CppExc.runtimeError
      "Future has no associated state"))
  | some s => (s.wait).map Except.ok

/-- `MyFuture::valid`: whether a `SharedState` is associated. -/
def MyFuture.valid {T E : Type} (f : MyFuture T E) : Bool :=
  f.state_.isSome

/-- `MyPromise<T>`: a (nullable) shared pointer to the `SharedState` plus the
`future_retrieved_` flag. -/
structure MyPromise (T E : Type) where
  state_ : Option (SharedState T E)
  future_retrieved_ : Bool
deriving DecidableEq, Repr

/-- The default `MyPromise` constructor: a fresh `SharedState` and
`future_retrieved_(false)`. -/
def MyPromise.init {T E : Type} : MyPromise T E :=
  { state_ := some SharedState.init, future_retrieved_ := false }

/-- The `MyPromise` move constructor: the destination steals the state pointer
and copies `future_retrieved_`; the source's pointer becomes null and its
`future_retrieved_` is set to `true` so it can no longer issue a future.
Returns (destination, source after the move). -/
def MyPromise.moveConstruct {T E : Type} (other : MyPromise T E) :
    MyPromise T E × MyPromise T E :=
  ({ state_ := other.state_, future_retrieved_ := other.future_retrieved_ },
   { state_ := none, future_retrieved_ := true })

/-- The `MyPromise` move assignment for two distinct objects (the
`this != &other` guard in the source makes self-assignment a no-op; here the
two arguments model distinct objects): the destination takes the source's
state pointer and flag, the source becomes null with `future_retrieved_`
true.  Returns (destination after, source after). -/
def MyPromise.moveAssign {T E : Type} (_dst src : MyPromise T E) :
    MyPromise T E × MyPromise T E :=
  ({ state_ := src.state_, future_retrieved_ := src.future_retrieved_ },
   { state_ := none, future_retrieved_ := true })

/-- `MyPromise::get_future`: throw
`runtime_error("Future already retrieved or no state")` when `state_` is null
or `future_retrieved_` is already true; otherwise set `future_retrieved_` and
return a `MyFuture` bound to the same state.  Returns the call's outcome and
the promise afterwards. -/
def MyPromise.get_future {T E : Type} (p : MyPromise T E) :
    Except (CppExc E) (MyFuture T E) × MyPromise T E :=
  match p.state_ with
  | none => (Except.error (CppExc.runtimeError
      "Future already retrieved or no state"), p)
  | some s =>
    if p.future_retrieved_ then
      (Except.error (CppExc.runtimeError
        "Future already retrieved or no state"), p)
    else
      (Except.ok { state_ := some s },
       { p with future_retrieved_ := true })

/-- `MyPromise::set_value`: throw `runtime_error("Promise has no state")` when
`state_` is null, else delegate to `SharedState::set_value` (both the
`const T&` and the `T&&` overloads reduce to this). -/
def MyPromise.set_value {T E : Type} (p : MyPromise T E) (value : T) :
    Except (CppExc E) Unit × MyPromise T E :=
  match p.state_ with
  | none => (Except.error (CppExc.runtimeError "Promise has no state"), p)
  | some s =>
    let r := s.set_value value
    (r.1, { p with state_ := some r.2 })

/-- `MyPromise::set_exception`: throw `runtime_error("Promise has no state")`
when `state_` is null, else delegate to `SharedState::set_exception`. -/
def MyPromise.set_exception {T E : Type} (p : MyPromise T E)
    (ptr : Option (CppExc E)) : Except (CppExc E) Unit × MyPromise T E :=
  match p.state_ with
  | none => (Except.error (CppExc.runtimeError "Promise has no state"), p)
  | some s =>
    let r := s.set_exception ptr
    (r.1, { p with state_ := some r.2 })

/-- `MyPromise::~MyPromise`: if a state is held, it is not ready, and a future
was retrieved, install `runtime_error("Broken promise")` via
`SharedState::set_exception`, swallowing any exception that raises.  The
result is the final contents of the shared state (still referenced by any
issued future), or `none` when the promise held no state. -/
def MyPromise.destruct {T E : Type} (p : MyPromise T E) :
    Option (SharedState T E) :=
  match p.state_ with
  | none => none
  | some s =>
    if ¬ s.is_ready ∧ p.future_retrieved_ then
      some (s.set_exception (some (CppExc.runtimeError "Broken promise"))).2
    else
      some s

/-! Helper lemmas shared by the invariant proofs. -/

/-- The invariant maintained by the write operations: each populated slot
implies readiness, and the two slots are never populated together. -/
def SharedState.Inv {T E : Type} (s : SharedState T E) : Prop :=
  (s.value_.isSome = true → s.ready_ = true) ∧
  (s.exception_ptr_.isSome = true → s.ready_ = true) ∧
  ¬ (s.value_.isSome = true ∧ s.exception_ptr_.isSome = true)

theorem SharedState.inv_init {T E : Type} : (SharedState.init : SharedState T E).Inv := by
  simp [SharedState.Inv, SharedState.init]

theorem SharedState.inv_applyWrite {T E : Type} (s : SharedState T E)
    (op : WriteOp T E) (h : s.Inv) : ((s.applyWrite op).2).Inv := by
  obtain ⟨h1, h2, h3⟩ := h
  have hvn : ¬ s.ready_ = true → s.value_ = none := by
    intro hr
    rcases hv : s.value_ with _ | v
    · rfl
    · exact absurd (h1 (by simp [hv])) hr
  have hen : ¬ s.ready_ = true → s.exception_ptr_ = none := by
    intro hr
    rcases he : s.exception_ptr_ with _ | e
    · rfl
    · exact absurd (h2 (by simp [he])) hr
  cases op with
  | setValue v =>
    by_cases hr : s.ready_ = true
    · simp only [SharedState.applyWrite, SharedState.set_value, hr, if_true]
      exact ⟨h1, h2, h3⟩
    · simp [SharedState.applyWrite, SharedState.set_value, hr, SharedState.Inv, hen hr]
  | setException p =>
    by_cases hr : s.ready_ = true
    · simp only [SharedState.applyWrite, SharedState.set_exception, hr, if_true]
      exact ⟨h1, h2, h3⟩
    · simp [SharedState.applyWrite, SharedState.set_exception, hr, SharedState.Inv, hvn hr]

theorem SharedState.inv_run {T E : Type} (ops : List (WriteOp T E))
    (s : SharedState T E) (h : s.Inv) : (s.run ops).Inv := by
  induction ops generalizing s with
  | nil => exact h
  | cons op ops ih => exact ih _ (s.inv_applyWrite op h)

theorem SharedState.ready_applyWrite {T E : Type} (s : SharedState T E)
    (op : WriteOp T E) (h : s.ready_ = true) :
    ((s.applyWrite op).2).ready_ = true := by
  cases op <;>
    simp [SharedState.applyWrite, SharedState.set_value, SharedState.set_exception, h]

theorem SharedState.applyWrite_of_ready {T E : Type} (s : SharedState T E)
    (op : WriteOp T E) (h : s.ready_ = true) :
    s.applyWrite op =
      (Except.error (CppExc.runtimeError "Promise already satisfied"), s) := by
  cases op <;>
    simp [SharedState.applyWrite, SharedState.set_value, SharedState.set_exception, h]

theorem SharedState.ready_run {T E : Type} (ops : List (WriteOp T E))
    (s : SharedState T E) (h : s.ready_ = true) : (s.run ops).ready_ = true := by
  induction ops generalizing s with
  | nil => exact h
  | cons op ops ih => exact ih _ (s.ready_applyWrite op h)

/-! Claim theorems. -/

/-- C1: starting from any not-yet-ready `SharedState` (in particular a freshly
constructed one), the first of two write operations (`set_value` /
`set_exception` in any combination) succeeds, the second throws
`runtime_error("Promise already satisfied")` and leaves the state — hence the
outcome observed by `get_value` — exactly as the first write installed it. -/
theorem C1_at_most_once_write {T E : Type} (s : SharedState T E)
    (h : s.ready_ = false) (w1 w2 : WriteOp T E) :
    (s.applyWrite w1).1 = Except.ok () ∧
    (((s.applyWrite w1).2).applyWrite w2).1 =
      Except.error (CppExc.runtimeError "Promise already satisfied") ∧
    (((s.applyWrite w1).2).applyWrite w2).2 = (s.applyWrite w1).2 ∧
    ((((s.applyWrite w1).2).applyWrite w2).2).get_value =
      ((s.applyWrite w1).2).get_value := by
  have hready : ((s.applyWrite w1).2).ready_ = true := by
    cases w1 <;>
      simp [SharedState.applyWrite, SharedState.set_value, SharedState.set_exception, h]
  have h2 := SharedState.applyWrite_of_ready ((s.applyWrite w1).2) w2 hready
  refine ⟨?_, ?_, ?_, ?_⟩
  · cases w1 <;>
      simp [SharedState.applyWrite, SharedState.set_value, SharedState.set_exception, h]
  · rw [h2]
  · rw [h2]
  · rw [h2]

/-- Witness for C1 at the spec's double-write scenario: `set_value 1` then
`set_value 2` on a fresh state. -/
theorem C1_at_most_once_write_witness :
    (SharedState.init : SharedState Nat Nat).ready_ = false ∧
    (((SharedState.init : SharedState Nat Nat).applyWrite (WriteOp.setValue 1)).1 =
        Except.ok () ∧
      ((((SharedState.init : SharedState Nat Nat).applyWrite
            (WriteOp.setValue 1)).2).applyWrite (WriteOp.setValue 2)).1 =
        Except.error (CppExc.runtimeError "Promise already satisfied") ∧
      ((((SharedState.init : SharedState Nat Nat).applyWrite
            (WriteOp.setValue 1)).2).applyWrite (WriteOp.setValue 2)).2 =
        ((SharedState.init : SharedState Nat Nat).applyWrite (WriteOp.setValue 1)).2 ∧
      (((((SharedState.init : SharedState Nat Nat).applyWrite
            (WriteOp.setValue 1)).2).applyWrite (WriteOp.setValue 2)).2).get_value =
        (((SharedState.init : SharedState Nat Nat).applyWrite
            (WriteOp.setValue 1)).2).get_value) :=
  ⟨rfl, C1_at_most_once_write SharedState.init rfl (WriteOp.setValue 1) (WriteOp.setValue 2)⟩

/-- C2 counterexample: after the single public operation
`set_exception(nullptr)` on a fresh state, `ready_` is true while neither the
value slot nor the exception slot is populated, so "`ready_` iff exactly one
of the two slots is populated" is false. -/
theorem C2_ready_iff_counterexample :
    ¬ (((SharedState.init : SharedState Nat Nat).run [WriteOp.setException none]).ready_ = true ↔
        ((((SharedState.init : SharedState Nat Nat).run
              [WriteOp.setException none]).value_.isSome = true ∧
          ¬ ((SharedState.init : SharedState Nat Nat).run
              [WriteOp.setException none]).exception_ptr_.isSome = true) ∨
         (¬ ((SharedState.init : SharedState Nat Nat).run
              [WriteOp.setException none]).value_.isSome = true ∧
          ((SharedState.init : SharedState Nat Nat).run
              [WriteOp.setException none]).exception_ptr_.isSome = true))) := by
  decide

/-- C2 (amended): along every run of write operations from a fresh state, a
populated value or exception slot implies `ready_ = true`, the two slots are
never populated simultaneously, and once `ready_` is true no further sequence
of operations makes it false.  The converse direction of the original claim
fails only for the null-exception-pointer write (see the counterexample),
which sets `ready_` with neither slot populated. -/
theorem C2_ready_invariant {T E : Type} (ops more : List (WriteOp T E)) :
    ((((SharedState.init : SharedState T E).run ops).value_.isSome = true ∨
      ((SharedState.init : SharedState T E).run ops).exception_ptr_.isSome = true) →
      ((SharedState.init : SharedState T E).run ops).ready_ = true) ∧
    ¬ (((SharedState.init : SharedState T E).run ops).value_.isSome = true ∧
       ((SharedState.init : SharedState T E).run ops).exception_ptr_.isSome = true) ∧
    (((SharedState.init : SharedState T E).run ops).ready_ = true →
      (((SharedState.init : SharedState T E).run ops).run more).ready_ = true) := by
  have hinv := SharedState.inv_run ops SharedState.init SharedState.inv_init
  exact ⟨fun h => h.elim hinv.1 hinv.2.1, hinv.2.2,
    fun h => SharedState.ready_run more _ h⟩

/-- Witness for C2 (amended) at the run `[set_value 7]` followed by a further
(failing) write. -/
theorem C2_ready_invariant_witness :
    (((SharedState.init : SharedState Nat Nat).run [WriteOp.setValue 7]).run
        [WriteOp.setException none]).ready_ = true :=
  (C2_ready_invariant [WriteOp.setValue 7] [WriteOp.setException none]).2.2
    ((C2_ready_invariant [WriteOp.setValue 7] [WriteOp.setException none]).1
      (Or.inl (by decide)))

/-- C8: on a state whose `ready_` flag is true while both the value slot and
the exception slot are empty, `get_value` throws the defensive
`runtime_error("Internal error: shared state ready but no value or exception")`
instead of returning an indeterminate value. -/
theorem C8_internal_inconsistency {T E : Type} (s : SharedState T E)
    (h1 : s.ready_ = true) (h2 : s.value_ = none) (h3 : s.exception_ptr_ = none) :
    s.get_value = some (Except.error (CppExc.runtimeError
      "Internal error: shared state ready but no value or exception")) := by
  simp [SharedState.get_value, h1, h2, h3]

/-- Witness for C8 at the concrete inconsistent state. -/
theorem C8_internal_inconsistency_witness :
    ({ value_ := none, exception_ptr_ := none, ready_ := true } : SharedState Nat Nat).ready_ = true ∧
    ({ value_ := none, exception_ptr_ := none, ready_ := true } : SharedState Nat Nat).value_ = none ∧
    ({ value_ := none, exception_ptr_ := none, ready_ := true } : SharedState Nat Nat).exception_ptr_ = none ∧
    ({ value_ := none, exception_ptr_ := none, ready_ := true } : SharedState Nat Nat).get_value =
      some (Except.error (CppExc.runtimeError
        "Internal error: shared state ready but no value or exception")) :=
  ⟨rfl, rfl, rfl, C8_internal_inconsistency _ rfl rfl rfl⟩

/-- C9: `set_exception` with a null exception pointer on a fresh state
succeeds, sets `ready_`, and leaves both the value slot empty and the
exception pointer null, so the subsequent `get_value` takes the defensive
internal-inconsistency branch: the supposedly unreachable "ready but neither
value nor failure" state is reachable through the public interface. -/
theorem C9_null_exception_pointer {T E : Type} :
    ((SharedState.init : SharedState T E).set_exception none).1 = Except.ok () ∧
    (((SharedState.init : SharedState T E).set_exception none).2).ready_ = true ∧
    (((SharedState.init : SharedState T E).set_exception none).2).value_ = none ∧
    (((SharedState.init : SharedState T E).set_exception none).2).exception_ptr_ = none ∧
    (((SharedState.init : SharedState T E).set_exception none).2).get_value =
      some (Except.error (CppExc.runtimeError
        "Internal error: shared state ready but no value or exception")) :=
  ⟨rfl, rfl, rfl, rfl, rfl⟩

/-- C10: a `MyFuture` holding no `SharedState` answers `is_ready` with
`false` rather than throwing, while `get` and `wait` on the same empty future
throw `runtime_error("Future has no associated state")`. -/
theorem C10_empty_future {T E : Type} (f : MyFuture T E) (h : f.state_ = none) :
    f.is_ready = false ∧
    f.get = some (Except.error (CppExc.runtimeError "Future has no associated state")) ∧
    f.wait = some (Except.error (CppExc.runtimeError "Future has no associated state")) := by
  simp [MyFuture.is_ready, MyFuture.get, MyFuture.wait, h]

/-- Witness for C10 at the concrete empty future. -/
theorem C10_empty_future_witness :
    ({ state_ := none } : MyFuture Nat Nat).state_ = none ∧
    (({ state_ := none } : MyFuture Nat Nat).is_ready = false ∧
     ({ state_ := none } : MyFuture Nat Nat).get =
       some (Except.error (CppExc.runtimeError "Future has no associated state")) ∧
     ({ state_ := none } : MyFuture Nat Nat).wait =
       some (Except.error (CppExc.runtimeError "Future has no associated state"))) :=
  ⟨rfl, C10_empty_future _ rfl⟩

/-- C3: destroying a `MyPromise` that holds a not-yet-ready state after a
future was retrieved installs `runtime_error("Broken promise")` into the
shared state via `set_exception`, so the state becomes ready and every
pending or subsequent `get_value` observes exactly that terminal failure;
when no future was ever retrieved, the destructor leaves the state
unchanged. -/
theorem C3_broken_promise_on_destruction {T E : Type} (p : MyPromise T E)
    (s : SharedState T E) (h : p.state_ = some s) :
    (s.ready_ = false → p.future_retrieved_ = true →
      p.destruct = some ({ s with
                           exception_ptr_ := some (CppExc.runtimeError "Broken promise"),
                           ready_ := true } : SharedState T E) ∧
      SharedState.get_value ({ s with
                               exception_ptr_ := some (CppExc.runtimeError "Broken promise"),
                               ready_ := true } : SharedState T E) =
        some (Except.error (CppExc.runtimeError "Broken promise"))) ∧
    (p.future_retrieved_ = false → p.destruct = some s) := by
  constructor
  · intro hr hf
    constructor
    · simp [MyPromise.destruct, h, SharedState.is_ready, hr, hf,
        SharedState.set_exception]
    · simp [SharedState.get_value]
  · intro hf
    simp [MyPromise.destruct, h, hf]

/-- Witness for C3: a promise holding a fresh state with
`future_retrieved_ = true` is destroyed; the reader then observes the broken
promise failure. -/
theorem C3_broken_promise_on_destruction_witness :
    ({ state_ := some SharedState.init, future_retrieved_ := true } : MyPromise Nat Nat).destruct =
      some ({ value_ := none,
              exception_ptr_ := some (CppExc.runtimeError "Broken promise"),
              ready_ := true } : SharedState Nat Nat) ∧
    SharedState.get_value ({ value_ := none,
                             exception_ptr_ := some (CppExc.runtimeError "Broken promise"),
                             ready_ := true } : SharedState Nat Nat) =
      some (Except.error (CppExc.runtimeError "Broken promise")) :=
  (C3_broken_promise_on_destruction
    { state_ := some SharedState.init, future_retrieved_ := true }
    SharedState.init rfl).1 rfl rfl

/-- C4: writing a failure payload `e` through `MyPromise::set_exception`
succeeds on an unsatisfied promise, and the reader — `MyFuture::get` on a
future bound to the resulting shared state, or `SharedState::get_value`
directly — raises exactly the payload `e` that the producer stored, not a
wrapped or replaced error. -/
theorem C4_failure_propagated_verbatim {T E : Type} (p : MyPromise T E)
    (s : SharedState T E) (h : p.state_ = some s) (hr : s.ready_ = false)
    (e : CppExc E) :
    (p.set_exception (some e)).1 = Except.ok () ∧
    (MyFuture.mk ((p.set_exception (some e)).2.state_)).get =
      some (Except.error e) ∧
    ((s.set_exception (some e)).2).get_value = some (Except.error e) := by
  refine ⟨?_, ?_, ?_⟩ <;>
    simp [MyPromise.set_exception, h, SharedState.set_exception, hr,
      MyFuture.get, SharedState.get_value]

/-- Witness for C4 with the user payload `0` written into a fresh promise. -/
theorem C4_failure_propagated_verbatim_witness :
    (MyPromise.init : MyPromise Nat Nat).state_ = some SharedState.init ∧
    (SharedState.init : SharedState Nat Nat).ready_ = false ∧
    (((MyPromise.init : MyPromise Nat Nat).set_exception (some (CppExc.user 0))).1 =
        Except.ok () ∧
      (MyFuture.mk (((MyPromise.init : MyPromise Nat Nat).set_exception
          (some (CppExc.user 0))).2.state_)).get =
        some (Except.error (CppExc.user 0)) ∧
      (((SharedState.init : SharedState Nat Nat).set_exception
          (some (CppExc.user 0))).2).get_value =
        some (Except.error (CppExc.user 0))) :=
  ⟨rfl, rfl,
    C4_failure_propagated_verbatim MyPromise.init SharedState.init rfl rfl
      (CppExc.user 0)⟩

/-- C5: the first `get_future` on a promise holding a state succeeds, returns
a `MyFuture` bound to that same state, and marks `future_retrieved_`; any
`get_future` call on a promise whose flag is already set, or on a promise
holding no state (in particular a moved-from one), throws
`runtime_error("Future already retrieved or no state")`. -/
theorem C5_get_future_once {T E : Type} (p : MyPromise T E)
    (s : SharedState T E) (h : p.state_ = some s)
    (hf : p.future_retrieved_ = false) :
    (p.get_future).1 = Except.ok { state_ := some s } ∧
    (p.get_future).2.future_retrieved_ = true ∧
    (p.get_future).2.state_ = some s ∧
    (∀ q : MyPromise T E, q.future_retrieved_ = true →
      (q.get_future).1 =
        Except.error (CppExc.runtimeError "Future already retrieved or no state")) ∧
    (∀ q : MyPromise T E, q.state_ = none →
      (q.get_future).1 =
        Except.error (CppExc.runtimeError "Future already retrieved or no state")) := by
  refine ⟨?_, ?_, ?_, ?_, ?_⟩
  · simp [MyPromise.get_future, h, hf]
  · simp [MyPromise.get_future, h, hf]
  · simp [MyPromise.get_future, h, hf]
  · intro q hq
    rcases hqs : q.state_ with _ | s2 <;> simp [MyPromise.get_future, hqs, hq]
  · intro q hq
    simp [MyPromise.get_future, hq]

/-- Witness for C5: on a fresh promise the first `get_future` succeeds and
the second fails. -/
theorem C5_get_future_once_witness :
    ((MyPromise.init : MyPromise Nat Nat).get_future).1 =
      Except.ok { state_ := some SharedState.init } ∧
    (((MyPromise.init : MyPromise Nat Nat).get_future).2.get_future).1 =
      Except.error (CppExc.runtimeError "Future already retrieved or no state") := by
  have h := C5_get_future_once (MyPromise.init : MyPromise Nat Nat)
    SharedState.init rfl rfl
  exact ⟨h.1, h.2.2.2.1 _ h.2.1⟩

/-- C6: both the move constructor and (non-self) move assignment transfer the
state pointer and the `future_retrieved_` flag, making the destination
field-for-field equal to the original promise — so every operation on it
behaves exactly as on the original — while the moved-from source is left with
a null state on which `set_value` and `set_exception` throw
`runtime_error("Promise has no state")` and `get_future` throws
`runtime_error("Future already retrieved or no state")`. -/
theorem C6_moved_from_inert {T E : Type} (p q : MyPromise T E) (v : T)
    (ptr : Option (CppExc E)) :
    (p.moveConstruct).1 = p ∧
    (MyPromise.moveAssign q p).1 = p ∧
    (p.moveConstruct).2 = (MyPromise.moveAssign q p).2 ∧
    ((p.moveConstruct).2).state_ = none ∧
    ((p.moveConstruct).2).set_value v =
      (Except.error (CppExc.runtimeError "Promise has no state"),
        (p.moveConstruct).2) ∧
    ((p.moveConstruct).2).set_exception ptr =
      (Except.error (CppExc.runtimeError "Promise has no state"),
        (p.moveConstruct).2) ∧
    (((p.moveConstruct).2).get_future).1 =
      Except.error (CppExc.runtimeError "Future already retrieved or no state") :=
  ⟨rfl, rfl, rfl, rfl, rfl, rfl, rfl⟩

/-- C7: after a successful `set_value v` through the promise, a `MyFuture`
bound to the resulting shared state returns `v` from `get`.  Neither
`MyFuture::get` nor `SharedState::get_value` mutates the future or the state
(the invalidating `state_.reset()` is absent from the source and `*value_` is
returned by copy), so the second `get` is the same observation of the same
unchanged future and returns `v` again, and readiness and validity
persist. -/
theorem C7_repeated_get {T E : Type} (p : MyPromise T E) (s : SharedState T E)
    (h : p.state_ = some s) (hr : s.ready_ = false)
    (he : s.exception_ptr_ = none) (v : T) :
    (p.set_value v).1 = Except.ok () ∧
    (MyFuture.mk ((p.set_value v).2.state_)).get = some (Except.ok v) ∧
    (MyFuture.mk ((p.set_value v).2.state_)).is_ready = true ∧
    (MyFuture.mk ((p.set_value v).2.state_)).valid = true := by
  refine ⟨?_, ?_, ?_, ?_⟩ <;>
    simp [MyPromise.set_value, h, SharedState.set_value, hr, he, MyFuture.get,
      SharedState.get_value, MyFuture.is_ready, SharedState.is_ready,
      MyFuture.valid]

/-- Witness for C7 with the spec's happy-path value `42` on a fresh
promise. -/
theorem C7_repeated_get_witness :
    (MyPromise.init : MyPromise Nat Nat).state_ = some SharedState.init ∧
    (SharedState.init : SharedState Nat Nat).ready_ = false ∧
    (SharedState.init : SharedState Nat Nat).exception_ptr_ = none ∧
    (((MyPromise.init : MyPromise Nat Nat).set_value 42).1 = Except.ok () ∧
      (MyFuture.mk (((MyPromise.init : MyPromise Nat Nat).set_value 42).2.state_)).get =
        some (Except.ok 42) ∧
      (MyFuture.mk (((MyPromise.init : MyPromise Nat Nat).set_value 42).2.state_)).is_ready = true ∧
      (MyFuture.mk (((MyPromise.init : MyPromise Nat Nat).set_value 42).2.state_)).valid = true) :=
  ⟨rfl, rfl, rfl, C7_repeated_get MyPromise.init SharedState.init rfl rfl rfl 42⟩
